import Mathlib

/-!
Verification of the forex-live-trader core against its specification.

This file shallowly embeds the pure computational content of the repository's
Python source (app/services/trade_executor.py, risk_engine.py, price_stream.py,
scheduler.py, app/utils/forex_utils.py, session_utils.py, app/config.py and the
alembic percentile materialization) into Lean 4.  Prices, pips and cash amounts
are modelled as rationals; database rows become Lean structures; stateful
operations become explicit state-passing functions.  Theorems at the end settle
the spec's claims about these functions.
-/

namespace ForexTrader

/-! ## String helpers (model Python `sub in s`, `.upper()`, `.lower()`) -/

/-- Boolean test that the first list is an initial segment of the second. -/
def listPrefixEq : List Char → List Char → Bool
  | [], _ => true
  | _ :: _, [] => false
  | a :: as, b :: bs => a == b && listPrefixEq as bs

/-- Boolean test that `sub` occurs contiguously inside the second list. -/
def listHasSub (sub : List Char) : List Char → Bool
  | [] => listPrefixEq sub []
  | b :: bs => listPrefixEq sub (b :: bs) || listHasSub sub bs

/-- Model of the Python expression `sub in s` on strings. -/
def strContains (s sub : String) : Bool :=
  listHasSub sub.toList s.toList

/-- Model of Python `str.upper()`. -/
def strUpper (s : String) : String :=
  String.mk (s.toList.map Char.toUpper)

/-- Model of Python `str.lower()`. -/
def strLower (s : String) : String :=
  String.mk (s.toList.map Char.toLower)

/-- Model of Python `s[-3:]` (the quote currency of a pair). -/
def strTakeRight (s : String) (n : ℕ) : String :=
  String.mk ((s.toList.reverse.take n).reverse)

/-! ## Rounding (model of Python `round(x, n)`: nearest, ties to even) -/

/-- Round a rational to the nearest integer, ties to the even integer,
matching Python's `round`. -/
def pyRound (q : ℚ) : ℤ :=
  if q - ⌊q⌋ = 1 / 2 then (if ⌊q⌋ % 2 = 0 then ⌊q⌋ else ⌊q⌋ + 1) else round q

/-- Model of Python `round(x, 1)`. -/
def round1 (q : ℚ) : ℚ := (pyRound (q * 10) : ℚ) / 10

/-- Model of Python `round(x, 2)`. -/
def round2 (q : ℚ) : ℚ := (pyRound (q * 100) : ℚ) / 100

theorem floor_le_pyRound (q : ℚ) : ⌊q⌋ ≤ pyRound q := by
  unfold pyRound
  split
  · split <;> omega
  · rw [round_eq]
    exact Int.floor_le_floor (by linarith)

theorem pyRound_le_ceil (q : ℚ) : pyRound q ≤ ⌈q⌉ := by
  have hceil : q ≤ (⌈q⌉ : ℚ) := Int.le_ceil q
  unfold pyRound
  split
  · rename_i h
    have hne : (⌊q⌋ : ℚ) ≠ q := by
      intro he
      rw [← he] at h
      norm_num at h
    have hlt : ⌊q⌋ < ⌈q⌉ := by
      rcases lt_or_eq_of_le (Int.floor_le_ceil q) with h1 | h1
      · exact h1
      · exfalso
        have hfq : (⌊q⌋ : ℚ) ≤ q := Int.floor_le q
        rw [← h1] at hceil
        exact hne (le_antisymm hfq hceil)
    split <;> omega
  · rw [round_eq]
    have hlt2 : q + 1 / 2 < ((⌈q⌉ + 1 : ℤ) : ℚ) := by push_cast; linarith
    have := Int.floor_lt.mpr hlt2
    omega

theorem pyRound_eq (q : ℚ) (n : ℤ) (h1 : (n : ℚ) - 1 / 2 < q) (h2 : q < (n : ℚ) + 1 / 2) :
    pyRound q = n := by
  have hfl : ⌊q + 1 / 2⌋ = n := by
    rw [Int.floor_eq_iff]
    constructor
    · linarith
    · linarith
  have hnotie : ¬(q - ⌊q⌋ = 1 / 2) := by
    intro hti
    have hfq : (⌊q⌋ : ℚ) ≤ q := Int.floor_le q
    have hlt : q < (⌊q⌋ : ℚ) + 1 := Int.lt_floor_add_one q
    have c1 : (n : ℚ) - 1 < (⌊q⌋ : ℚ) := by linarith
    have c2 : (⌊q⌋ : ℚ) < (n : ℚ) := by linarith
    have d1 : n - 1 < ⌊q⌋ := by exact_mod_cast c1
    have d2 : ⌊q⌋ < n := by exact_mod_cast c2
    omega
  unfold pyRound
  rw [if_neg hnotie, round_eq, hfl]

theorem round1_eq (q : ℚ) (n : ℤ) (h1 : (n : ℚ) - 1 / 2 < q * 10) (h2 : q * 10 < (n : ℚ) + 1 / 2) :
    round1 q = (n : ℚ) / 10 := by
  rw [round1, pyRound_eq _ n h1 h2]

theorem round2_eq (q : ℚ) (n : ℤ) (h1 : (n : ℚ) - 1 / 2 < q * 100) (h2 : q * 100 < (n : ℚ) + 1 / 2) :
    round2 q = (n : ℚ) / 100 := by
  rw [round2, pyRound_eq _ n h1 h2]

/-! ## app/config.py : settings and compiled-in constants -/

def settings_starting_balance : ℚ := 10000
def settings_risk_percent : ℚ := 31 / 20          -- 1.55
def settings_max_lot_size : ℚ := 5
def settings_min_lot_size : ℚ := 1 / 100
def settings_commission_per_lot : ℚ := 7 / 2      -- 3.50 per lot per side
def settings_default_spread_pips : ℚ := 3 / 10
def settings_tp_percentile : String := "P75"
def settings_sl_percentile : String := "P50"

/-- ECN_SPREADS dict from app/config.py (typical spreads in pips). -/
def ECN_SPREADS : List (String × ℚ) :=
  [("EURUSD", 1/10), ("GBPUSD", 3/10), ("USDJPY", 2/10), ("AUDUSD", 3/10),
   ("USDCAD", 4/10), ("NZDUSD", 5/10), ("EURGBP", 4/10), ("EURJPY", 5/10),
   ("GBPJPY", 8/10), ("EURAUD", 6/10), ("EURCAD", 6/10), ("EURNZD", 8/10),
   ("GBPAUD", 9/10), ("GBPCAD", 8/10), ("GBPNZD", 1), ("AUDJPY", 5/10),
   ("CADJPY", 5/10), ("XAUUSD", 15/100), ("XAGUSD", 2/100)]

/-- Model of `ECN_SPREADS.get(pair, settings.default_spread_pips)`. -/
def ecnSpread (pair : String) : ℚ :=
  (ECN_SPREADS.lookup pair).getD settings_default_spread_pips

/-- SLIPPAGE dict from app/config.py, field `entry`. -/
def SLIPPAGE_entry : ℚ := 2 / 10
/-- SLIPPAGE dict from app/config.py, field `exit_tp`. -/
def SLIPPAGE_exit_tp : ℚ := 1 / 10
/-- SLIPPAGE dict from app/config.py, field `exit_sl`. -/
def SLIPPAGE_exit_sl : ℚ := 1 / 2

/-! ## app/utils/forex_utils.py -/

/-- Source `get_pip_value(pair)`: tick size of one pip for the instrument. -/
def get_pip_value (pair : String) : ℚ :=
  if strContains (strUpper pair) "XAU" then 1
  else if strContains (strUpper pair) "XAG" then 1 / 100
  else if strContains (strUpper pair) "JPY" then 1 / 100
  else 1 / 10000

theorem get_pip_value_pos (pair : String) : 0 < get_pip_value pair := by
  unfold get_pip_value
  split
  · norm_num
  · split
    · norm_num
    · split <;> norm_num

/-- Source `get_pip_value_in_usd(pair)`: dollar value of one pip per standard lot,
derived from the quote currency with the compiled-in default USD rates. -/
def get_pip_value_in_usd (pair : String) : ℚ :=
  let u := strUpper pair
  if strContains u "XAU" then 100
  else if strContains u "XAG" then 50
  else
    let quote := strTakeRight u 3
    if quote = "USD" then 10
    else if quote = "JPY" then round2 (10 * (100 / 157))
    else if quote = "CAD" then round2 (10 / (144/100))
    else if quote = "CHF" then round2 (10 / (90/100))
    else if quote = "GBP" then round2 (10 * (126/100))
    else if quote = "AUD" then round2 (10 * (62/100))
    else if quote = "NZD" then round2 (10 * (58/100))
    else if quote = "EUR" then round2 (10 * (108/100))
    else 10

/-! ## app/services/risk_engine.py -/

/-- Row of the `percentile_targets` materialized view as fetched by
`get_percentiles` (app/services/risk_engine.py). -/
structure PercentileTargets where
  pair : String
  session_name : String
  sample_count : ℕ
  accuracy_pct : ℚ
  mfe_p25 : ℚ
  mfe_p50 : ℚ
  mfe_p75 : ℚ
  mae_p25 : ℚ
  mae_p50 : ℚ
  mae_p75 : ℚ
  deriving DecidableEq, Repr

/-- The `RiskParameters` dataclass (app/services/risk_engine.py). -/
structure RiskParameters where
  pair : String
  session_name : String
  direction : String
  entry_price : ℚ
  take_profit : ℚ
  stop_loss : ℚ
  tp_pips : ℚ
  sl_pips : ℚ
  lot_size : ℚ
  risk_dollars : ℚ
  spread_pips : ℚ
  percentile_source : String
  deriving DecidableEq, Repr

/-- Source `get_percentile_value(targets, stat_type, percentile)`: attribute lookup by
the string `f"{stat_type.lower()}_{percentile.lower()}"`, default 0.0. -/
def get_percentile_value (t : PercentileTargets) (stat_type percentile : String) : ℚ :=
  let key := strLower stat_type ++ "_" ++ strLower percentile
  if key = "mfe_p25" then t.mfe_p25
  else if key = "mfe_p50" then t.mfe_p50
  else if key = "mfe_p75" then t.mfe_p75
  else if key = "mae_p25" then t.mae_p25
  else if key = "mae_p50" then t.mae_p50
  else if key = "mae_p75" then t.mae_p75
  else 0

/-- Source `calculate_tp_sl(entry_price, direction, pair, targets, tp_percentile,
sl_percentile)` returning `(take_profit, stop_loss, tp_pips, sl_pips)`. -/
def calculate_tp_sl (entry_price : ℚ) (direction pair : String)
    (targets : PercentileTargets) (tp_percentile sl_percentile : String) :
    ℚ × ℚ × ℚ × ℚ :=
  let pip_value := get_pip_value pair
  let tp_pips := max (get_percentile_value targets "mfe" tp_percentile) 5
  let sl_pips := max (get_percentile_value targets "mae" sl_percentile) 5
  if direction = "BULLISH" then
    (entry_price + tp_pips * pip_value, entry_price - sl_pips * pip_value, tp_pips, sl_pips)
  else
    (entry_price - tp_pips * pip_value, entry_price + sl_pips * pip_value, tp_pips, sl_pips)

/-- Source `calculate_position_size(balance, sl_pips, pair)` returning
`(lot_size, risk_dollars)`; risk percent defaults from settings. -/
def calculate_position_size (balance sl_pips : ℚ) (pair : String) : ℚ × ℚ :=
  let risk_dollars := balance * (settings_risk_percent / 100)
  let pip_value_per_lot : ℚ :=
    if strContains pair "JPY" then 9
    else if strContains pair "XAU" || strContains pair "XAG" then 10
    else 10
  let sl := if sl_pips ≤ 0 then 10 else sl_pips
  let lot_size_raw := risk_dollars / (sl * pip_value_per_lot)
  let lot1 := max settings_min_lot_size lot_size_raw
  let lot2 := min settings_max_lot_size lot1
  (round2 lot2, risk_dollars)

/-- Source `calculate_risk_parameters(pair, session_name, direction, entry_price,
balance)`; the percentile-view read is passed in as an `Option`. -/
def calculate_risk_parameters (pair session_name direction : String)
    (entry_price balance : ℚ) (targets : Option PercentileTargets) :
    Option RiskParameters :=
  match targets with
  | none => none
  | some t =>
    if t.sample_count < 30 then none
    else
      let tpsl := calculate_tp_sl entry_price direction pair t
        settings_tp_percentile settings_sl_percentile
      let size := calculate_position_size balance tpsl.2.2.2 pair
      some {
        pair := pair
        session_name := session_name
        direction := direction
        entry_price := entry_price
        take_profit := tpsl.1
        stop_loss := tpsl.2.1
        tp_pips := tpsl.2.2.1
        sl_pips := tpsl.2.2.2
        lot_size := size.1
        risk_dollars := size.2
        spread_pips := ecnSpread pair
        percentile_source := settings_tp_percentile ++ "/" ++ settings_sl_percentile }

/-! ## app/services/trade_executor.py -/

/-- Source `calculate_entry_slippage(pair)`. -/
def calculate_entry_slippage (_pair : String) : ℚ := SLIPPAGE_entry

/-- Source `calculate_exit_slippage(is_stop)`. -/
def calculate_exit_slippage (is_stop : Bool) : ℚ :=
  if is_stop then SLIPPAGE_exit_sl else SLIPPAGE_exit_tp

/-- Source `calculate_commission(lot_size)`: roundtrip commission. -/
def calculate_commission (lot_size : ℚ) : ℚ :=
  lot_size * (settings_commission_per_lot * 2)

/-- The spread-adjusted entry price persisted by `open_trade`: Bullish pays the
spread upward, otherwise downward. -/
def open_trade_entry_price (risk_params : RiskParameters) (prediction : String) : ℚ :=
  let pip_value := get_pip_value risk_params.pair
  let spread_adjustment := risk_params.spread_pips * pip_value
  if prediction = "BULLISH" then risk_params.entry_price + spread_adjustment
  else risk_params.entry_price - spread_adjustment

/-- The `trades` row fields that `close_trade` reads and writes. -/
structure Trade where
  pair : String
  prediction : String
  entry_price : ℚ
  lot_size : ℚ
  exit_price : Option ℚ
  outcome : Option String
  pnl_pips : Option ℚ
  pnl_dollars : Option ℚ
  commission : Option ℚ
  deriving DecidableEq, Repr

/-- The local P/L computation inside `close_trade` (lines 229-254). -/
structure CloseCalc where
  slippage_pips : ℚ
  pnl_pips : ℚ
  pnl_dollars : ℚ
  commission : ℚ
  net_pnl_dollars : ℚ
  deriving DecidableEq, Repr

/-- P/L arithmetic of `close_trade`: slippage by exit type, directional pip
movement, cash conversion, roundtrip commission. -/
def close_calc (pair prediction : String) (entry_price exit_price lot_size : ℚ)
    (is_stop_exit : Bool) : CloseCalc :=
  let slippage_pips := calculate_exit_slippage is_stop_exit
  let pip_value := get_pip_value pair
  let pnl_pips :=
    if prediction = "BULLISH" then (exit_price - entry_price) / pip_value - slippage_pips
    else (entry_price - exit_price) / pip_value - slippage_pips
  let pip_value_usd := get_pip_value_in_usd pair
  let pnl_dollars := pnl_pips * pip_value_usd * lot_size
  let commission := calculate_commission lot_size
  { slippage_pips := slippage_pips
    pnl_pips := pnl_pips
    pnl_dollars := pnl_dollars
    commission := commission
    net_pnl_dollars := pnl_dollars - commission }

/-- The `account` row. -/
structure Account where
  balance : ℚ
  initial_balance : ℚ
  total_trades : ℕ
  winning_trades : ℕ
  losing_trades : ℕ
  peak_balance : ℚ
  max_drawdown_pct : ℚ
  deriving DecidableEq, Repr

/-- The account row seeded by migration 001 (and by `update_account_balance`
when absent): balance = peak = starting balance, all counters zero. -/
def initialAccount : Account :=
  { balance := settings_starting_balance
    initial_balance := settings_starting_balance
    total_trades := 0
    winning_trades := 0
    losing_trades := 0
    peak_balance := settings_starting_balance
    max_drawdown_pct := 0 }

/-- Source `update_account_balance(conn, pnl, outcome)` (trade_executor.py 290-349). -/
def update_account_balance (account : Account) (pnl : ℚ) (outcome : String) : Account :=
  let new_balance := account.balance + pnl
  let total_trades := account.total_trades + 1
  let winning_trades := account.winning_trades + (if outcome = "WIN" then 1 else 0)
  let losing_trades := account.losing_trades + (if outcome = "LOSS" then 1 else 0)
  let peak_balance := max account.peak_balance new_balance
  let drawdown_pct : ℚ :=
    if peak_balance > 0 then ((peak_balance - new_balance) / peak_balance) * 100 else 0
  let max_drawdown := max account.max_drawdown_pct drawdown_pct
  { account with
    balance := new_balance
    total_trades := total_trades
    winning_trades := winning_trades
    losing_trades := losing_trades
    peak_balance := peak_balance
    max_drawdown_pct := max_drawdown }

/-- Source `close_trade(trade_id, exit_price, outcome, is_stop_exit)` acting on the
fetched trade row and the account row.  NOTE: faithful to the source, there is
no guard on `trade.outcome` being already set — the row is re-processed. -/
def close_trade (trade : Trade) (exit_price : ℚ) (outcome : String)
    (is_stop_exit : Bool) (account : Account) : Trade × Account :=
  let c := close_calc trade.pair trade.prediction trade.entry_price exit_price
    trade.lot_size is_stop_exit
  ({ trade with
      exit_price := some exit_price
      outcome := some outcome
      pnl_pips := some (round1 c.pnl_pips)
      pnl_dollars := some (round2 c.net_pnl_dollars)
      commission := some (round2 c.commission) },
   update_account_balance account c.net_pnl_dollars outcome)

/-- Fold a sequence of `(net_pnl, outcome)` account updates, one per close. -/
def applyCloses (account : Account) (l : List (ℚ × String)) : Account :=
  l.foldl (fun a p => update_account_balance a p.1 p.2) account

/-! ## app/services/price_stream.py -/

/-- The `Quote` dataclass; timestamps are epoch milliseconds. -/
structure Quote where
  pair : String
  bid : ℚ
  ask : ℚ
  timestamp : ℤ
  deriving DecidableEq, Repr

/-- The `Quote.mid` property. -/
def Quote.mid (q : Quote) : ℚ := (q.bid + q.ask) / 2

/-- The `PriceAlert` dataclass. -/
structure PriceAlert where
  trade_id : String
  pair : String
  direction : String
  entry_price : ℚ
  take_profit : ℚ
  stop_loss : ℚ
  triggered : Bool
  trigger_type : Option String
  trigger_price : Option ℚ
  trigger_time : Option ℤ
  deriving DecidableEq, Repr

/-- The trigger decision of `PriceStream._check_alerts` for one alert and one
quote: alerts for another pair or already triggered are skipped; otherwise TP
is tested first, then SL, with inclusive comparisons on the mid price. -/
def evaluate_alert (alert : PriceAlert) (q : Quote) : Option String :=
  if alert.pair ≠ q.pair || alert.triggered then none
  else
    let price := q.mid
    if alert.direction = "BULLISH" then
      if price ≥ alert.take_profit then some "TP"
      else if price ≤ alert.stop_loss then some "SL"
      else none
    else
      if price ≤ alert.take_profit then some "TP"
      else if price ≥ alert.stop_loss then some "SL"
      else none

/-- The mutable state of a `PriceStream` object. -/
structure PriceStreamState where
  api_key : String
  running : Bool
  connected_event : Bool
  has_ws : Bool
  has_recv_task : Bool
  quotes : List (String × Quote)
  alerts : List (String × PriceAlert)
  subscribed_pairs : List String
  deriving DecidableEq, Repr

/-- Source `PriceStream.disconnect()` (price_stream.py 162-180): stops the receive
loop, closes and clears the socket, clears quotes and subscriptions.  Faithful
to the source, `_alerts` is left untouched. -/
def stream_disconnect (s : PriceStreamState) : PriceStreamState :=
  { s with
    running := false
    connected_event := false
    has_recv_task := false
    has_ws := false
    quotes := []
    subscribed_pairs := [] }

/-! ## Session clock (scheduler.py `_get_next_session` + session_utils.py) -/

/-- Civil days since 0000-03-01 (proleptic Gregorian), valid for year ≥ 1. -/
def daysFromCivil (y m d : ℕ) : ℕ :=
  let y2 := if m ≤ 2 then y - 1 else y
  let era := y2 / 400
  let yoe := y2 % 400
  let mp := (m + 9) % 12
  let doy := (153 * mp + 2) / 5 + d - 1
  let doe := yoe * 365 + yoe / 4 - yoe / 100 + doy
  era * 146097 + doe

/-- Inverse of `daysFromCivil`: day number to `(year, month, day)`. -/
def civilFromDays (z : ℕ) : ℕ × ℕ × ℕ :=
  let era := z / 146097
  let doe := z % 146097
  let yoe := (doe - doe / 1460 + doe / 36524 - doe / 146096) / 365
  let y := yoe + era * 400
  let doy := doe - (365 * yoe + yoe / 4 - yoe / 100)
  let mp := (5 * doy + 2) / 153
  let d := doy - (153 * mp + 2) / 5 + 1
  let m := if mp < 10 then mp + 3 else mp - 9
  (if m ≤ 2 then y + 1 else y, m, d)

/-- Python `date.weekday()`: Monday = 0 … Sunday = 6, from the day number. -/
def weekdayOfDays (z : ℕ) : ℕ := (z + 2) % 7

/-- A UTC wall-clock instant. -/
structure DateTimeUTC where
  year : ℕ
  month : ℕ
  day : ℕ
  hour : ℕ
  minute : ℕ
  deriving DecidableEq, Repr

/-- Total minutes since 0000-03-01, for comparing instants. -/
def DateTimeUTC.toMinutes (t : DateTimeUTC) : ℕ :=
  daysFromCivil t.year t.month t.day * 1440 + t.hour * 60 + t.minute

/-- Modelled from the IANA America/New_York rules that `pytz` applies (the
library is external to the repository): US daylight saving runs from the
second Sunday of March to the first Sunday of November. -/
def usDstStartDay (y : ℕ) : ℕ :=
  8 + (6 + 7 - weekdayOfDays (daysFromCivil y 3 8)) % 7

/-- First Sunday of November, the US daylight-saving end date. -/
def usDstEndDay (y : ℕ) : ℕ :=
  1 + (6 + 7 - weekdayOfDays (daysFromCivil y 11 1)) % 7

/-- Whether 09:30 local America/New_York on this date falls in daylight time. -/
def isUsDst (y m d : ℕ) : Bool :=
  (3 < m || (m = 3 && usDstStartDay y ≤ d)) &&
  (m < 11 || (m = 11 && d < usDstEndDay y))

/-- Modelled from the IANA Europe/London rules that `pytz` applies: British
Summer Time runs from the last Sunday of March to the last Sunday of October. -/
def ukDstStartDay (y : ℕ) : ℕ :=
  31 - (weekdayOfDays (daysFromCivil y 3 31) + 1) % 7

/-- Last Sunday of October, the BST end date. -/
def ukDstEndDay (y : ℕ) : ℕ :=
  31 - (weekdayOfDays (daysFromCivil y 10 31) + 1) % 7

/-- Whether 08:00 local Europe/London on this date falls in summer time. -/
def isUkDst (y m d : ℕ) : Bool :=
  (3 < m || (m = 3 && ukDstStartDay y ≤ d)) &&
  (m < 10 || (m = 10 && d < ukDstEndDay y))

/-- Source `get_session_times_for_date` (session_utils.py): UTC `(hour, minute)` of
the London open, 08:00 Europe/London localized to UTC. -/
def londonOpenUTC (y m d : ℕ) : ℕ × ℕ :=
  (if isUkDst y m d then 7 else 8, 0)

/-- Source `get_session_times_for_date`: UTC `(hour, minute)` of the New York open,
09:30 America/New_York localized to UTC. -/
def nyOpenUTC (y m d : ℕ) : ℕ × ℕ :=
  (if isUsDst y m d then 13 else 14, 30)

/-- Source `get_session_times_for_date`: UTC `(hour, minute)` of the Asian open,
fixed 01:00 UTC. -/
def asianOpenUTC (_y _m _d : ℕ) : ℕ × ℕ := (1, 0)

/-- The three open sessions in the order `_get_next_session` scans them. -/
def sessionOpenTimes (y m d : ℕ) : List (String × ℕ × ℕ) :=
  [("Asian_Open", asianOpenUTC y m d),
   ("London_Open", londonOpenUTC y m d),
   ("NY_Open", nyOpenUTC y m d)]

/-- The first session of the given day strictly after `now`, if any. -/
def firstSessionOfDay (dayNum : ℕ) (now : DateTimeUTC) : Option (String × DateTimeUTC) :=
  let c := civilFromDays dayNum
  (sessionOpenTimes c.1 c.2.1 c.2.2).findSome? fun s =>
    let dt : DateTimeUTC :=
      { year := c.1, month := c.2.1, day := c.2.2, hour := s.2.1, minute := s.2.2 }
    if now.toMinutes < dt.toMinutes then some (s.1, dt) else none

/-- Source `TradingScheduler._get_next_session` (scheduler.py 175-221): scan today
and tomorrow skipping weekend days, else fall back to Monday's Asian open. -/
def get_next_session (now : DateTimeUTC) : String × DateTimeUTC :=
  let todayNum := daysFromCivil now.year now.month now.day
  let scan := ([0, 1] : List ℕ).findSome? fun day_offset =>
    let dayNum := todayNum + day_offset
    if weekdayOfDays dayNum = 5 || weekdayOfDays dayNum = 6 then none
    else firstSessionOfDay dayNum now
  match scan with
  | some r => r
  | none =>
    let wd := weekdayOfDays todayNum
    let days_until_monday := if (7 - wd) % 7 = 0 then 7 else (7 - wd) % 7
    let c := civilFromDays (todayNum + days_until_monday)
    let asian := asianOpenUTC c.1 c.2.1 c.2.2
    ("Asian_Open",
     { year := c.1, month := c.2.1, day := c.2.2, hour := asian.1, minute := asian.2 })

/-! ## Rolling window and percentile materialization
(trade_executor.py `add_to_rolling_window` / `cleanup_old_rolling_data`,
alembic 002 `percentile_targets`) -/

/-- A `rolling_window` row.  The `in_window` column's DDL is absent from the
migrations under src; its semantics are modelled from the spec: excursion
records carry `in_window : bool` and newly appended rows are in the window. -/
structure RWRow where
  pair : String
  session_name : String
  session_datetime : ℤ
  model : String
  correct : Bool
  mfe_pips : ℚ
  mae_pips : ℚ
  in_window : Bool
  deriving DecidableEq, Repr

/-- Six months before `t`, as the cutoff `NOW() - INTERVAL '6 months'` used by
both the cleanup statement and the materialized view (minutes; the calendar
interval is modelled as a fixed length, which preserves its monotonicity). -/
def sixMonthsBefore (t : ℤ) : ℤ := t - 262800

/-- The natural key of `rolling_window` after migration 002. -/
def RWRow.sameKey (r : RWRow) (pair session_name : String) (dt : ℤ) (model : String) : Bool :=
  r.pair = pair && r.session_name = session_name &&
  r.session_datetime = dt && r.model = model

/-- One operation on the rolling window table. -/
inductive RWOp where
  | upsert (pair session_name : String) (session_datetime : ℤ) (model : String)
      (correct : Bool) (mfe_pips mae_pips : ℚ)
  | cleanup (t : ℤ)
  deriving DecidableEq, Repr

/-- Source `add_to_rolling_window`: INSERT … ON CONFLICT (pair, session_name,
session_datetime, model) DO UPDATE of the excursion fields; a fresh row takes
the `in_window` default (true). -/
def applyUpsert (s : List RWRow) (pair session_name : String) (dt : ℤ)
    (model : String) (correct : Bool) (mfe mae : ℚ) : List RWRow :=
  if s.any (fun r => r.sameKey pair session_name dt model) then
    s.map fun r =>
      if r.sameKey pair session_name dt model then
        { r with correct := correct, mfe_pips := mfe, mae_pips := mae }
      else r
  else
    { pair := pair, session_name := session_name, session_datetime := dt,
      model := model, correct := correct, mfe_pips := mfe, mae_pips := mae,
      in_window := true } :: s

/-- Source `cleanup_old_rolling_data` at time `t`: set `in_window = FALSE` where it is
TRUE and `session_datetime < NOW() - INTERVAL '6 months'`. -/
def applyCleanup (s : List RWRow) (t : ℤ) : List RWRow :=
  s.map fun r =>
    if r.in_window && r.session_datetime < sixMonthsBefore t then
      { r with in_window := false }
    else r

/-- Interpret one rolling-window operation. -/
def applyRWOp (s : List RWRow) : RWOp → List RWRow
  | .upsert pair session_name dt model correct mfe mae =>
      applyUpsert s pair session_name dt model correct mfe mae
  | .cleanup t => applyCleanup s t

/-- Run a sequence of rolling-window operations from the empty table. -/
def runRWOps (ops : List RWOp) : List RWRow :=
  ops.foldl applyRWOp []

/-- The rows the `percentile_targets` materialized view aggregates when
refreshed at time `now`: `WHERE session_datetime >= NOW() - INTERVAL
'6 months'` (alembic 002, lines 49-73). -/
def viewRows (s : List RWRow) (now : ℤ) : List RWRow :=
  s.filter fun r => sixMonthsBefore now ≤ r.session_datetime

/-- The view's GROUP BY key. -/
def groupOf (r : RWRow) : String × String × String :=
  (r.pair, r.session_name, r.model)

/-! ## Scheduler open decision (scheduler.py `_execute_session`, 395-437) -/

/-- Whether `_execute_session` reaches `open_trade` for one pair: NEUTRAL
predictions are skipped, and so is a pair whose risk parameters are `None`. -/
def opens_trade (prediction : String) (risk_params : Option RiskParameters) : Bool :=
  !(prediction == "NEUTRAL") && risk_params.isSome

/-! ## Spec-side P/L formula (for the refinement comparison of claim C6) -/

/-- Written from the spec: `slippage_pips = 0.5 if was_stop_exit else 0.1`. -/
def spec_slippage_pips (was_stop_exit : Bool) : ℚ :=
  if was_stop_exit then 1 / 2 else 1 / 10

/-- Written from the spec: raw pip movement respecting direction, minus exit
slippage. -/
def spec_pnl_pips (is_long : Bool) (entry_price exit_price tick : ℚ)
    (was_stop_exit : Bool) : ℚ :=
  (if is_long then (exit_price - entry_price) / tick
   else (entry_price - exit_price) / tick) - spec_slippage_pips was_stop_exit

/-- Written from the spec: cash P/L `pips × pip_cash_per_lot × lot_size` minus
roundtrip commission `2 × commission_per_lot × lot_size`. -/
def spec_net_cash (pnl_pips pip_cash_per_lot lot_size commission_per_lot : ℚ) : ℚ :=
  pnl_pips * pip_cash_per_lot * lot_size - 2 * commission_per_lot * lot_size

/-! # Theorems settling the claims -/

/-! ### Evaluation lemmas for the concrete instruments used below -/

theorem gpv_eurusd : get_pip_value "EURUSD" = 1 / 10000 := by
  have h1 : strContains (strUpper "EURUSD") "XAU" = false := by decide
  have h2 : strContains (strUpper "EURUSD") "XAG" = false := by decide
  have h3 : strContains (strUpper "EURUSD") "JPY" = false := by decide
  simp [get_pip_value, h1, h2, h3]

theorem gpv_usdjpy : get_pip_value "USDJPY" = 1 / 100 := by
  have h1 : strContains (strUpper "USDJPY") "XAU" = false := by decide
  have h2 : strContains (strUpper "USDJPY") "XAG" = false := by decide
  have h3 : strContains (strUpper "USDJPY") "JPY" = true := by decide
  simp [get_pip_value, h1, h2, h3]

theorem gpvusd_eurusd : get_pip_value_in_usd "EURUSD" = 10 := by
  have h1 : strContains (strUpper "EURUSD") "XAU" = false := by decide
  have h2 : strContains (strUpper "EURUSD") "XAG" = false := by decide
  have h3 : strTakeRight (strUpper "EURUSD") 3 = "USD" := by decide
  simp [get_pip_value_in_usd, h1, h2, h3]

theorem gpvusd_usdjpy : get_pip_value_in_usd "USDJPY" = 637 / 100 := by
  have h1 : strContains (strUpper "USDJPY") "XAU" = false := by decide
  have h2 : strContains (strUpper "USDJPY") "XAG" = false := by decide
  have h3 : strTakeRight (strUpper "USDJPY") 3 = "JPY" := by decide
  have hr : round2 (10 * ((100 : ℚ) / 157)) = 637 / 100 := by
    rw [round2, pyRound_eq _ 637 (by norm_num) (by norm_num)]
    norm_num
  simp [get_pip_value_in_usd, h1, h2, h3, hr]

/-! ### Claim C2 — entry spread adjustment -/

/-- Concrete EURUSD risk parameters used to refute the half-spread claim. -/
def c2rp : RiskParameters :=
  { pair := "EURUSD", session_name := "London_Open", direction := "BULLISH",
    entry_price := 11 / 10, take_profit := 551 / 500, stop_loss := 1099 / 1000,
    tp_pips := 20, sl_pips := 10, lot_size := 31 / 20, risk_dollars := 155,
    spread_pips := 1 / 10, percentile_source := "P75/P50" }

/-- C2 counterexample: for a Bullish EURUSD entry at 1.1 with spread 0.1 pips,
the persisted entry price is NOT the risk-engine entry plus half the spread
(`spread_pips/2 × tick`); it is the entry plus the full spread. -/
theorem open_trade_half_spread_counterexample :
    open_trade_entry_price c2rp "BULLISH" ≠
      c2rp.entry_price + c2rp.spread_pips / 2 * get_pip_value c2rp.pair ∧
    open_trade_entry_price c2rp "BULLISH" =
      c2rp.entry_price + c2rp.spread_pips * get_pip_value c2rp.pair := by
  constructor
  · simp [open_trade_entry_price, c2rp, gpv_eurusd]
    norm_num
  · simp [open_trade_entry_price, c2rp, gpv_eurusd]

/-- C2 (amended): for every trade opened via `open_trade`, the persisted entry
price is the risk-engine entry price adjusted by the instrument's FULL spread
in price units (`spread_pips × tick`): a Bullish entry adds it and any other
direction subtracts it. -/
theorem open_trade_full_spread_adjustment (rp : RiskParameters) (prediction : String) :
    open_trade_entry_price rp prediction =
      rp.entry_price +
        (if prediction = "BULLISH" then 1 else -1) *
          (rp.spread_pips * get_pip_value rp.pair) := by
  simp only [open_trade_entry_price]
  split <;> ring

/-! ### Claim C6 — close P/L formula and scenario S4 -/

/-- C6: `close_trade`'s P/L computation matches the specified formula —
slippage 0.5 for stop exits and 0.1 otherwise, direction-respecting pip
movement minus slippage, cash conversion by `pip_cash_per_lot × lot_size`,
roundtrip commission `2 × commission_per_lot × lot_size` — and on scenario S4
(Short USDJPY, entry 150.00, exit 149.85, not a stop exit) the pips P/L is
`(150.00 − 149.85)/0.01 − 0.1 = 14.9`. -/
theorem close_trade_pnl_formula (pair prediction : String)
    (entry_price exit_price lot_size : ℚ) (is_stop_exit : Bool) :
    ((close_calc pair prediction entry_price exit_price lot_size is_stop_exit).slippage_pips =
        spec_slippage_pips is_stop_exit ∧
      (close_calc pair prediction entry_price exit_price lot_size is_stop_exit).pnl_pips =
        spec_pnl_pips (prediction = "BULLISH") entry_price exit_price
          (get_pip_value pair) is_stop_exit ∧
      (close_calc pair prediction entry_price exit_price lot_size is_stop_exit).net_pnl_dollars =
        spec_net_cash
          (close_calc pair prediction entry_price exit_price lot_size is_stop_exit).pnl_pips
          (get_pip_value_in_usd pair) lot_size settings_commission_per_lot) ∧
    (close_calc "USDJPY" "BEARISH" 150 (2997 / 20) 1 false).pnl_pips = 149 / 10 ∧
    round1 (close_calc "USDJPY" "BEARISH" 150 (2997 / 20) 1 false).pnl_pips = 149 / 10 := by
  have hs4 : (close_calc "USDJPY" "BEARISH" 150 (2997 / 20) 1 false).pnl_pips = 149 / 10 := by
    simp [close_calc, gpv_usdjpy, calculate_exit_slippage, SLIPPAGE_exit_tp]
    norm_num
  refine ⟨⟨?_, ?_, ?_⟩, hs4, ?_⟩
  · simp [close_calc, calculate_exit_slippage, spec_slippage_pips,
      SLIPPAGE_exit_sl, SLIPPAGE_exit_tp]
  · by_cases h : prediction = "BULLISH" <;>
      simp [close_calc, calculate_exit_slippage, spec_pnl_pips, spec_slippage_pips,
        SLIPPAGE_exit_sl, SLIPPAGE_exit_tp, h]
  · simp [close_calc, calculate_commission, spec_net_cash, settings_commission_per_lot]
    ring
  · rw [hs4, round1_eq _ 149 (by norm_num) (by norm_num)]
    norm_num

/-! ### Claim C9 — disconnect frame -/

/-- A stream state holding one registered alert and live subscriptions. -/
def c9state : PriceStreamState :=
  { api_key := "k", running := true, connected_event := true, has_ws := true,
    has_recv_task := true,
    quotes := [("EURUSD", { pair := "EURUSD", bid := 1, ask := 2, timestamp := 0 })],
    alerts := [("t1",
      { trade_id := "t1", pair := "EURUSD", direction := "BULLISH",
        entry_price := 1, take_profit := 2, stop_loss := 0, triggered := false,
        trigger_type := none, trigger_price := none, trigger_time := none })],
    subscribed_pairs := ["EURUSD"] }

/-- C9 counterexample: `disconnect` does NOT drop registered alerts — on a
state with one alert, the alert table after `disconnect` is unchanged and
non-empty, refuting "all registered alerts are dropped". -/
theorem disconnect_drops_alerts_counterexample :
    (stream_disconnect c9state).alerts = c9state.alerts ∧
    (stream_disconnect c9state).alerts ≠ [] := by
  decide

/-- C9 (amended): after `disconnect` from any state, the receive task is
cancelled, the socket is cleared, and the subscription set and latest-quote
table are emptied; registered alerts are RETAINED, and no other stream state
(api key, alerts) is affected. -/
theorem disconnect_state_frame (s : PriceStreamState) :
    (stream_disconnect s).running = false ∧
    (stream_disconnect s).connected_event = false ∧
    (stream_disconnect s).has_recv_task = false ∧
    (stream_disconnect s).has_ws = false ∧
    (stream_disconnect s).quotes = [] ∧
    (stream_disconnect s).subscribed_pairs = [] ∧
    (stream_disconnect s).alerts = s.alerts ∧
    (stream_disconnect s).api_key = s.api_key := by
  simp [stream_disconnect]

/-! ### Claim C1 — close is not idempotent in the source -/

/-- An open EURUSD long, 1 lot, entry 1.1, with null outcome fields. -/
def c1trade : Trade :=
  { pair := "EURUSD", prediction := "BULLISH", entry_price := 11 / 10,
    lot_size := 1, exit_price := none, outcome := none, pnl_pips := none,
    pnl_dollars := none, commission := none }

/-- First close of the open trade: exit 1.1050, WIN, not a stop exit. -/
def c1close1 : Trade × Account := close_trade c1trade (221 / 200) "WIN" false initialAccount

/-- Second close with the same arguments, applied to the state left by the
first close. -/
def c1close2 : Trade × Account :=
  close_trade c1close1.1 (221 / 200) "WIN" false c1close1.2

/-- C1: the source `close_trade` has no guard on an already-set outcome.
Closing the same trade twice with identical arguments (exit 1.1050, WIN,
non-stop) re-processes the close: the first call leaves the outcome non-null,
and the second call changes the account again — the balance moves from 10492
to 10984 and `total_trades` from 1 to 2 — contradicting the claimed
idempotency. -/
theorem close_trade_reprocesses_closed_trade :
    c1close1.1.outcome = some "WIN" ∧
    c1close2.2 ≠ c1close1.2 ∧
    c1close1.2.total_trades = 1 ∧ c1close2.2.total_trades = 2 ∧
    c1close1.2.balance = 10492 ∧ c1close2.2.balance = 10984 := by
  have hnet : (close_calc "EURUSD" "BULLISH" (11 / 10) (221 / 200) 1 false).net_pnl_dollars
      = 492 := by
    simp [close_calc, gpv_eurusd, gpvusd_eurusd, calculate_exit_slippage, SLIPPAGE_exit_tp,
      calculate_commission, settings_commission_per_lot]
    norm_num
  have hacct1 : c1close1.2 =
      update_account_balance initialAccount
        (close_calc "EURUSD" "BULLISH" (11 / 10) (221 / 200) 1 false).net_pnl_dollars
        "WIN" := by
    simp [c1close1, close_trade, c1trade]
  have htr1 : c1close1.1.pair = "EURUSD" ∧ c1close1.1.prediction = "BULLISH" ∧
      c1close1.1.entry_price = 11 / 10 ∧ c1close1.1.lot_size = 1 := by
    refine ⟨?_, ?_, ?_, ?_⟩ <;> simp [c1close1, close_trade, c1trade]
  have hacct2 : c1close2.2 =
      update_account_balance c1close1.2
        (close_calc "EURUSD" "BULLISH" (11 / 10) (221 / 200) 1 false).net_pnl_dollars
        "WIN" := by
    rw [c1close2, close_trade, htr1.1, htr1.2.1, htr1.2.2.1, htr1.2.2.2]
  have ht1 : c1close1.2.total_trades = 1 := by
    rw [hacct1]
    simp [update_account_balance, initialAccount]
  have ht2 : c1close2.2.total_trades = 2 := by
    rw [hacct2]
    simp [update_account_balance, ht1]
  have hb1 : c1close1.2.balance = 10492 := by
    rw [hacct1, hnet]
    simp [update_account_balance, initialAccount, settings_starting_balance]
    norm_num
  have hb2 : c1close2.2.balance = 10984 := by
    rw [hacct2, hnet]
    simp [update_account_balance, hb1]
    norm_num
  refine ⟨by simp [c1close1, close_trade], ?_, ht1, ht2, hb1, hb2⟩
  intro heq
  have := congrArg Account.total_trades heq
  rw [ht1, ht2] at this
  exact absurd this (by norm_num)

/-! ### Claim C8 — the DST scenario S1 input falls on a skipped Sunday -/

/-- C8 counterexample: at `now = 2024-03-10T06:00:00Z` the source
`_get_next_session` does NOT return (NY_Open, 2024-03-10T13:30Z): 2024-03-10
is a Sunday, which the weekend filter skips, so it returns Monday's Asian
open instead. -/
theorem next_session_dst_sunday_counterexample :
    get_next_session ⟨2024, 3, 10, 6, 0⟩ ≠ ("NY_Open", ⟨2024, 3, 10, 13, 30⟩) ∧
    get_next_session ⟨2024, 3, 10, 6, 0⟩ = ("Asian_Open", ⟨2024, 3, 11, 1, 0⟩) := by
  decide

/-- C8 (amended): with `now = 2024-03-10T06:00:00Z` (the US DST start date, a
Sunday), `next_session` returns (Asian_Open, 2024-03-11T01:00:00Z) because
weekend days are skipped; the America/New_York shift is nonetheless honored:
the computed NY open for that week (Monday 2024-03-11, and for 2024-03-10
itself) is 13:30Z, not 14:30Z, while one week earlier it is 14:30Z. -/
theorem next_session_dst_sunday_amended :
    get_next_session ⟨2024, 3, 10, 6, 0⟩ = ("Asian_Open", ⟨2024, 3, 11, 1, 0⟩) ∧
    weekdayOfDays (daysFromCivil 2024 3 10) = 6 ∧
    nyOpenUTC 2024 3 11 = (13, 30) ∧
    nyOpenUTC 2024 3 10 = (13, 30) ∧
    nyOpenUTC 2024 3 3 = (14, 30) := by
  decide

/-! ### Claim C3 — TP/SL trigger rules -/

/-- C3: for a quote on an untriggered alert's instrument, a Long (BULLISH)
alert triggers TP exactly when `mid ≥ take_profit` and SL exactly when
`mid ≤ stop_loss` (and the TP level is not also crossed); a Short alert is
mirrored; TP is evaluated before SL, so a quote whose mid crosses both levels
triggers TP, not SL.  When the levels are on the proper sides of the entry
the SL rule is exactly `mid ≤ stop_loss` (resp. `mid ≥ stop_loss`). -/
theorem alert_trigger_rules (alert : PriceAlert) (q : Quote)
    (hpair : alert.pair = q.pair) (huntrig : alert.triggered = false) :
    (alert.direction = "BULLISH" →
      (evaluate_alert alert q = some "TP" ↔ alert.take_profit ≤ q.mid) ∧
      (evaluate_alert alert q = some "SL" ↔
        q.mid ≤ alert.stop_loss ∧ q.mid < alert.take_profit) ∧
      (alert.stop_loss < alert.take_profit →
        (evaluate_alert alert q = some "SL" ↔ q.mid ≤ alert.stop_loss)) ∧
      (alert.take_profit ≤ q.mid → q.mid ≤ alert.stop_loss →
        evaluate_alert alert q = some "TP")) ∧
    (alert.direction = "BEARISH" →
      (evaluate_alert alert q = some "TP" ↔ q.mid ≤ alert.take_profit) ∧
      (evaluate_alert alert q = some "SL" ↔
        alert.stop_loss ≤ q.mid ∧ alert.take_profit < q.mid) ∧
      (alert.take_profit < alert.stop_loss →
        (evaluate_alert alert q = some "SL" ↔ alert.stop_loss ≤ q.mid)) ∧
      (q.mid ≤ alert.take_profit → alert.stop_loss ≤ q.mid →
        evaluate_alert alert q = some "TP")) := by
  constructor
  · intro hdir
    have he : evaluate_alert alert q =
        (if alert.take_profit ≤ q.mid then some "TP"
         else if q.mid ≤ alert.stop_loss then some "SL" else none) := by
      simp [evaluate_alert, hpair, huntrig, hdir, ge_iff_le]
    rw [he]
    refine ⟨?_, ?_, ?_, ?_⟩
    · by_cases h1 : alert.take_profit ≤ q.mid
      · simp [h1]
      · by_cases h2 : q.mid ≤ alert.stop_loss <;> simp [h1, h2]
    · by_cases h1 : alert.take_profit ≤ q.mid
      · simp [h1]
      · by_cases h2 : q.mid ≤ alert.stop_loss <;> simp [h1, h2]
        linarith
    · intro hlevels
      by_cases h1 : alert.take_profit ≤ q.mid
      · simp [h1]
        linarith
      · by_cases h2 : q.mid ≤ alert.stop_loss <;> simp [h1, h2]
    · intro ha hb
      simp [ha]
  · intro hdir
    have hne : ¬(alert.direction = "BULLISH") := by
      rw [hdir]
      decide
    have he : evaluate_alert alert q =
        (if q.mid ≤ alert.take_profit then some "TP"
         else if alert.stop_loss ≤ q.mid then some "SL" else none) := by
      simp [evaluate_alert, hpair, huntrig, hne, ge_iff_le]
    rw [he]
    refine ⟨?_, ?_, ?_, ?_⟩
    · by_cases h1 : q.mid ≤ alert.take_profit
      · simp [h1]
      · by_cases h2 : alert.stop_loss ≤ q.mid <;> simp [h1, h2]
    · by_cases h1 : q.mid ≤ alert.take_profit
      · simp [h1]
      · by_cases h2 : alert.stop_loss ≤ q.mid <;> simp [h1, h2]
        linarith
    · intro hlevels
      by_cases h1 : q.mid ≤ alert.take_profit
      · simp [h1]
        linarith
      · by_cases h2 : alert.stop_loss ≤ q.mid <;> simp [h1, h2]
    · intro ha hb
      simp [ha]

/-- An untriggered Long alert (entry 1.1, TP 1.1050, SL 1.0950). -/
def c3alert : PriceAlert :=
  { trade_id := "t1", pair := "EURUSD", direction := "BULLISH",
    entry_price := 11 / 10, take_profit := 221 / 200, stop_loss := 219 / 200,
    triggered := false, trigger_type := none, trigger_price := none,
    trigger_time := none }

/-- A EURUSD quote with mid 1.1051. -/
def c3quote : Quote :=
  { pair := "EURUSD", bid := 1105 / 1000, ask := 11052 / 10000, timestamp := 0 }

/-- Witness for C3 at a concrete alert and quote. -/
theorem alert_trigger_rules_witness :
    (c3alert.direction = "BULLISH" →
      (evaluate_alert c3alert c3quote = some "TP" ↔ c3alert.take_profit ≤ c3quote.mid) ∧
      (evaluate_alert c3alert c3quote = some "SL" ↔
        c3quote.mid ≤ c3alert.stop_loss ∧ c3quote.mid < c3alert.take_profit) ∧
      (c3alert.stop_loss < c3alert.take_profit →
        (evaluate_alert c3alert c3quote = some "SL" ↔ c3quote.mid ≤ c3alert.stop_loss)) ∧
      (c3alert.take_profit ≤ c3quote.mid → c3quote.mid ≤ c3alert.stop_loss →
        evaluate_alert c3alert c3quote = some "TP")) ∧
    (c3alert.direction = "BEARISH" →
      (evaluate_alert c3alert c3quote = some "TP" ↔ c3quote.mid ≤ c3alert.take_profit) ∧
      (evaluate_alert c3alert c3quote = some "SL" ↔
        c3alert.stop_loss ≤ c3quote.mid ∧ c3alert.take_profit < c3quote.mid) ∧
      (c3alert.take_profit < c3alert.stop_loss →
        (evaluate_alert c3alert c3quote = some "SL" ↔ c3alert.stop_loss ≤ c3quote.mid)) ∧
      (c3quote.mid ≤ c3alert.take_profit → c3alert.stop_loss ≤ c3quote.mid →
        evaluate_alert c3alert c3quote = some "TP")) :=
  alert_trigger_rules c3alert c3quote rfl rfl

/-! ### Claim C7 — InsufficientData exactly below 30 samples -/

/-- C7: the risk engine returns no `RiskParameters` exactly when the
percentile row is absent or its `sample_count < 30`; in particular with
`sample_count = 29` nothing is returned and `_execute_session` opens no
position regardless of the (non-neutral) prediction. -/
theorem risk_insufficient_data (pair session_name direction : String)
    (entry_price balance : ℚ) (targets : Option PercentileTargets) :
    (calculate_risk_parameters pair session_name direction entry_price balance targets = none ↔
      targets = none ∨ ∃ t, targets = some t ∧ t.sample_count < 30) ∧
    (∀ t, targets = some t → t.sample_count = 29 →
      calculate_risk_parameters pair session_name direction entry_price balance targets = none ∧
      opens_trade direction
        (calculate_risk_parameters pair session_name direction entry_price balance targets) =
        false) := by
  constructor
  · cases targets with
    | none => simp [calculate_risk_parameters]
    | some t =>
      by_cases h : t.sample_count < 30
      · simp [calculate_risk_parameters, h]
      · simp [calculate_risk_parameters, h]
  · intro t ht hcount
    subst ht
    have h29 : t.sample_count < 30 := by omega
    exact ⟨by simp [calculate_risk_parameters, h29],
      by simp [calculate_risk_parameters, h29, opens_trade]⟩

/-- Percentile row with 29 samples for (EURUSD, London). -/
def c7targets : PercentileTargets :=
  { pair := "EURUSD", session_name := "London_Open", sample_count := 29,
    accuracy_pct := 0, mfe_p25 := 0, mfe_p50 := 0, mfe_p75 := 20,
    mae_p25 := 0, mae_p50 := 10, mae_p75 := 0 }

/-- Witness for C7: with 29 samples, no risk parameters and no trade even for
a Bullish conviction-9 prediction. -/
theorem risk_insufficient_data_witness :
    calculate_risk_parameters "EURUSD" "London_Open" "BULLISH" (11 / 10) 10000
      (some c7targets) = none ∧
    opens_trade "BULLISH"
      (calculate_risk_parameters "EURUSD" "London_Open" "BULLISH" (11 / 10) 10000
        (some c7targets)) = false :=
  (risk_insufficient_data "EURUSD" "London_Open" "BULLISH" (11 / 10) 10000
    (some c7targets)).2 c7targets rfl rfl

/-! ### Claim C4 — account invariants under sequences of closes -/

theorem update_account_wl_le (a : Account) (pnl : ℚ) (outcome : String)
    (h : a.winning_trades + a.losing_trades ≤ a.total_trades) :
    (update_account_balance a pnl outcome).winning_trades +
      (update_account_balance a pnl outcome).losing_trades ≤
      (update_account_balance a pnl outcome).total_trades := by
  by_cases h1 : outcome = "WIN"
  · subst h1
    simp [update_account_balance]
    omega
  · by_cases h2 : outcome = "LOSS" <;> simp [update_account_balance, h1, h2] <;> omega

theorem update_account_peak (a : Account) (pnl : ℚ) (outcome : String) :
    (update_account_balance a pnl outcome).balance ≤
      (update_account_balance a pnl outcome).peak_balance := by
  simp [update_account_balance]

theorem update_account_mdd_nonneg (a : Account) (pnl : ℚ) (outcome : String) :
    0 ≤ (update_account_balance a pnl outcome).max_drawdown_pct := by
  simp only [update_account_balance]
  have hdd : (0 : ℚ) ≤
      (if max a.peak_balance (a.balance + pnl) > 0 then
        ((max a.peak_balance (a.balance + pnl) - (a.balance + pnl)) /
          max a.peak_balance (a.balance + pnl)) * 100
      else 0) := by
    split
    · rename_i hpos
      have hnum : (0 : ℚ) ≤ max a.peak_balance (a.balance + pnl) - (a.balance + pnl) := by
        have := le_max_right a.peak_balance (a.balance + pnl)
        linarith
      have := div_nonneg hnum (le_of_lt hpos)
      linarith
    · exact le_refl 0
  exact le_trans hdd (le_max_right _ _)

theorem update_account_mdd_mono (a : Account) (pnl : ℚ) (outcome : String) :
    a.max_drawdown_pct ≤ (update_account_balance a pnl outcome).max_drawdown_pct := by
  simp only [update_account_balance]
  exact le_max_left _ _

theorem applyCloses_wl_le (l : List (ℚ × String)) :
    ∀ a : Account, a.winning_trades + a.losing_trades ≤ a.total_trades →
      (applyCloses a l).winning_trades + (applyCloses a l).losing_trades ≤
        (applyCloses a l).total_trades := by
  induction l with
  | nil => intro a h; exact h
  | cons x xs ih =>
    intro a h
    exact ih _ (update_account_wl_le a x.1 x.2 h)

theorem applyCloses_peak_mdd (l : List (ℚ × String)) :
    ∀ a : Account, a.balance ≤ a.peak_balance → 0 ≤ a.max_drawdown_pct →
      (applyCloses a l).balance ≤ (applyCloses a l).peak_balance ∧
        0 ≤ (applyCloses a l).max_drawdown_pct := by
  induction l with
  | nil => intro a h1 h2; exact ⟨h1, h2⟩
  | cons x xs ih =>
    intro a _ _
    exact ih _ (update_account_peak a x.1 x.2) (update_account_mdd_nonneg a x.1 x.2)

theorem applyCloses_mdd_mono (l : List (ℚ × String)) :
    ∀ a : Account, a.max_drawdown_pct ≤ (applyCloses a l).max_drawdown_pct := by
  induction l with
  | nil => intro a; exact le_refl _
  | cons x xs ih =>
    intro a
    exact le_trans (update_account_mdd_mono a x.1 x.2) (ih _)

theorem applyCloses_append (a : Account) (l l2 : List (ℚ × String)) :
    applyCloses a (l ++ l2) = applyCloses (applyCloses a l) l2 := by
  simp [applyCloses, List.foldl_append]

/-- C4: after any sequence of closes applied to the freshly seeded account,
`winning_trades + losing_trades ≤ total_trades`, `peak_balance ≥ balance`, and
`max_drawdown_pct ≥ 0` and non-decreasing as further closes are appended;
TIMEOUT and BREAKEVEN closes increment neither the win nor the loss counter. -/
theorem account_invariants (l : List (ℚ × String)) :
    ((applyCloses initialAccount l).winning_trades +
        (applyCloses initialAccount l).losing_trades ≤
        (applyCloses initialAccount l).total_trades) ∧
    ((applyCloses initialAccount l).balance ≤ (applyCloses initialAccount l).peak_balance) ∧
    (0 ≤ (applyCloses initialAccount l).max_drawdown_pct) ∧
    (∀ l2 : List (ℚ × String),
      (applyCloses initialAccount l).max_drawdown_pct ≤
        (applyCloses initialAccount (l ++ l2)).max_drawdown_pct) ∧
    (∀ (a : Account) (pnl : ℚ),
      (update_account_balance a pnl "TIMEOUT").winning_trades = a.winning_trades ∧
      (update_account_balance a pnl "TIMEOUT").losing_trades = a.losing_trades ∧
      (update_account_balance a pnl "BREAKEVEN").winning_trades = a.winning_trades ∧
      (update_account_balance a pnl "BREAKEVEN").losing_trades = a.losing_trades) := by
  have hinit1 : initialAccount.winning_trades + initialAccount.losing_trades ≤
      initialAccount.total_trades := by
    simp [initialAccount]
  have hinit2 : initialAccount.balance ≤ initialAccount.peak_balance := le_refl _
  have hinit3 : (0 : ℚ) ≤ initialAccount.max_drawdown_pct := le_refl _
  refine ⟨applyCloses_wl_le l initialAccount hinit1,
    (applyCloses_peak_mdd l initialAccount hinit2 hinit3).1,
    (applyCloses_peak_mdd l initialAccount hinit2 hinit3).2, ?_, ?_⟩
  · intro l2
    rw [applyCloses_append]
    exact applyCloses_mdd_mono l2 _
  · intro a pnl
    refine ⟨?_, ?_, ?_, ?_⟩ <;> simp [update_account_balance]

/-! ### Claim C5 — risk parameter bounds -/

theorem round2_between (q : ℚ) (a b : ℤ) (h1 : (a : ℚ) ≤ q * 100) (h2 : q * 100 ≤ (b : ℚ)) :
    (a : ℚ) / 100 ≤ round2 q ∧ round2 q ≤ (b : ℚ) / 100 := by
  have hf : a ≤ ⌊q * 100⌋ := Int.le_floor.mpr h1
  have hc : ⌈q * 100⌉ ≤ b := Int.ceil_le.mpr h2
  have hpl : a ≤ pyRound (q * 100) := le_trans hf (floor_le_pyRound _)
  have hpu : pyRound (q * 100) ≤ b := le_trans (pyRound_le_ceil _) hc
  have hplq : (a : ℚ) ≤ (pyRound (q * 100) : ℚ) := by exact_mod_cast hpl
  have hpuq : ((pyRound (q * 100)) : ℚ) ≤ (b : ℚ) := by exact_mod_cast hpu
  unfold round2
  constructor
  · linarith
  · linarith

theorem round2_clamped_bounds (x : ℚ) :
    settings_min_lot_size ≤ round2 (min settings_max_lot_size (max settings_min_lot_size x)) ∧
    round2 (min settings_max_lot_size (max settings_min_lot_size x)) ≤ settings_max_lot_size := by
  have e1 : settings_min_lot_size = 1 / 100 := rfl
  have e2 : settings_max_lot_size = 5 := rfl
  set c := min settings_max_lot_size (max settings_min_lot_size x) with hcdef
  have hcl : settings_min_lot_size ≤ c := le_min (by rw [e1, e2]; norm_num) (le_max_left _ _)
  have hcu : c ≤ settings_max_lot_size := min_le_left _ _
  rw [e1] at hcl
  rw [e2] at hcu
  have hb := round2_between c 1 500 (by push_cast; linarith) (by push_cast; linarith)
  have h1 : ((1 : ℤ) : ℚ) / 100 ≤ round2 c := hb.1
  have h2 : round2 c ≤ ((500 : ℤ) : ℚ) / 100 := hb.2
  push_cast at h1 h2
  rw [e1, e2]
  constructor
  · linarith
  · linarith

theorem position_size_bounds (balance sl_pips : ℚ) (pair : String) :
    settings_min_lot_size ≤ (calculate_position_size balance sl_pips pair).1 ∧
    (calculate_position_size balance sl_pips pair).1 ≤ settings_max_lot_size :=
  round2_clamped_bounds _

theorem tp_sl_pips_projections (entry_price : ℚ) (direction pair : String)
    (t : PercentileTargets) (tpP slP : String) :
    (calculate_tp_sl entry_price direction pair t tpP slP).2.2.1 =
      max (get_percentile_value t "mfe" tpP) 5 ∧
    (calculate_tp_sl entry_price direction pair t tpP slP).2.2.2 =
      max (get_percentile_value t "mae" slP) 5 := by
  by_cases hd : direction = "BULLISH" <;> simp [calculate_tp_sl, hd]

/-- C5: every `RiskParameters` the risk engine returns satisfies
`tp_pips ≥ 5`, `sl_pips ≥ 5`, `min_lot ≤ lot_size ≤ max_lot` (after rounding
to 0.01-lot steps), and the TP/SL prices bracket the entry on the correct
sides for the direction. -/
theorem risk_parameter_bounds (pair session_name direction : String)
    (entry_price balance : ℚ) (targets : Option PercentileTargets) (rp : RiskParameters)
    (h : calculate_risk_parameters pair session_name direction entry_price balance targets =
      some rp) :
    5 ≤ rp.tp_pips ∧ 5 ≤ rp.sl_pips ∧
    settings_min_lot_size ≤ rp.lot_size ∧ rp.lot_size ≤ settings_max_lot_size ∧
    (direction = "BULLISH" →
      rp.stop_loss < rp.entry_price ∧ rp.entry_price < rp.take_profit) ∧
    (direction = "BEARISH" →
      rp.take_profit < rp.entry_price ∧ rp.entry_price < rp.stop_loss) := by
  cases targets with
  | none => simp [calculate_risk_parameters] at h
  | some t =>
    simp only [calculate_risk_parameters] at h
    by_cases hs : t.sample_count < 30
    · rw [if_pos hs] at h
      exact absurd h (by simp)
    · rw [if_neg hs] at h
      have hrp := (Option.some.inj h).symm
      subst hrp
      have hpips := tp_sl_pips_projections entry_price direction pair t
        settings_tp_percentile settings_sl_percentile
      have hpv := get_pip_value_pos pair
      have htp5 : (5 : ℚ) ≤
          (calculate_tp_sl entry_price direction pair t
            settings_tp_percentile settings_sl_percentile).2.2.1 := by
        rw [hpips.1]
        exact le_max_right _ _
      have hsl5 : (5 : ℚ) ≤
          (calculate_tp_sl entry_price direction pair t
            settings_tp_percentile settings_sl_percentile).2.2.2 := by
        rw [hpips.2]
        exact le_max_right _ _
      refine ⟨htp5, hsl5, (position_size_bounds balance _ pair).1,
        (position_size_bounds balance _ pair).2, ?_, ?_⟩
      · intro hd
        have htpsl : calculate_tp_sl entry_price direction pair t
            settings_tp_percentile settings_sl_percentile =
            (entry_price +
              max (get_percentile_value t "mfe" settings_tp_percentile) 5 * get_pip_value pair,
             entry_price -
              max (get_percentile_value t "mae" settings_sl_percentile) 5 * get_pip_value pair,
             max (get_percentile_value t "mfe" settings_tp_percentile) 5,
             max (get_percentile_value t "mae" settings_sl_percentile) 5) := by
          simp [calculate_tp_sl, hd]
        rw [htpsl]
        have h1 : 0 < max (get_percentile_value t "mfe" settings_tp_percentile) 5 *
            get_pip_value pair :=
          mul_pos (lt_of_lt_of_le (by norm_num) (le_max_right _ 5)) hpv
        have h2 : 0 < max (get_percentile_value t "mae" settings_sl_percentile) 5 *
            get_pip_value pair :=
          mul_pos (lt_of_lt_of_le (by norm_num) (le_max_right _ 5)) hpv
        constructor
        · simp only []
          linarith
        · simp only []
          linarith
      · intro hd
        have hnd : ¬(direction = "BULLISH") := by
          rw [hd]
          decide
        have htpsl : calculate_tp_sl entry_price direction pair t
            settings_tp_percentile settings_sl_percentile =
            (entry_price -
              max (get_percentile_value t "mfe" settings_tp_percentile) 5 * get_pip_value pair,
             entry_price +
              max (get_percentile_value t "mae" settings_sl_percentile) 5 * get_pip_value pair,
             max (get_percentile_value t "mfe" settings_tp_percentile) 5,
             max (get_percentile_value t "mae" settings_sl_percentile) 5) := by
          simp [calculate_tp_sl, hnd]
        rw [htpsl]
        have h1 : 0 < max (get_percentile_value t "mfe" settings_tp_percentile) 5 *
            get_pip_value pair :=
          mul_pos (lt_of_lt_of_le (by norm_num) (le_max_right _ 5)) hpv
        have h2 : 0 < max (get_percentile_value t "mae" settings_sl_percentile) 5 *
            get_pip_value pair :=
          mul_pos (lt_of_lt_of_le (by norm_num) (le_max_right _ 5)) hpv
        constructor
        · simp only []
          linarith
        · simp only []
          linarith

/-- Percentile row with 30 samples (TP percentile 20 pips, SL 10 pips). -/
def c5targets : PercentileTargets :=
  { pair := "EURUSD", session_name := "London_Open", sample_count := 30,
    accuracy_pct := 0, mfe_p25 := 0, mfe_p50 := 0, mfe_p75 := 20,
    mae_p25 := 0, mae_p50 := 10, mae_p75 := 0 }

/-- The risk parameters the engine computes from `c5targets` at entry 1.1 and
balance 10000. -/
def c5rp : RiskParameters :=
  { pair := "EURUSD", session_name := "London_Open", direction := "BULLISH",
    entry_price := 11 / 10, take_profit := 551 / 500, stop_loss := 1099 / 1000,
    tp_pips := 20, sl_pips := 10, lot_size := 31 / 20, risk_dollars := 155,
    spread_pips := 1 / 10, percentile_source := "P75/P50" }

theorem c5rp_eval :
    calculate_risk_parameters "EURUSD" "London_Open" "BULLISH" (11 / 10) 10000
      (some c5targets) = some c5rp := by
  have hkey1 : strLower "mfe" ++ "_" ++ strLower settings_tp_percentile = "mfe_p75" := by
    decide
  have hkey2 : strLower "mae" ++ "_" ++ strLower settings_sl_percentile = "mae_p50" := by
    decide
  have hg1 : get_percentile_value c5targets "mfe" settings_tp_percentile = 20 := by
    simp [get_percentile_value, hkey1, c5targets]
  have hg2 : get_percentile_value c5targets "mae" settings_sl_percentile = 10 := by
    simp [get_percentile_value, hkey2, c5targets]
  have htpsl : calculate_tp_sl (11 / 10) "BULLISH" "EURUSD" c5targets
      settings_tp_percentile settings_sl_percentile =
      (551 / 500, 1099 / 1000, 20, 10) := by
    simp [calculate_tp_sl, hg1, hg2, gpv_eurusd]
    norm_num [max_def]
  have hc1 : strContains "EURUSD" "JPY" = false := by decide
  have hr2 : round2 (31 / 20 : ℚ) = 31 / 20 := by
    rw [round2_eq _ 155 (by norm_num) (by norm_num)]
    norm_num
  have hps : calculate_position_size 10000 10 "EURUSD" = (31 / 20, 155) := by
    simp only [calculate_position_size, hc1, Bool.false_eq_true, if_false]
    norm_num [settings_risk_percent, settings_min_lot_size, settings_max_lot_size,
      max_def, min_def]
    rw [hr2]
  have hspread : ecnSpread "EURUSD" = 1 / 10 := rfl
  have hsrc : settings_tp_percentile ++ "/" ++ settings_sl_percentile = "P75/P50" := by
    decide
  simp only [calculate_risk_parameters]
  rw [if_neg (by simp [c5targets])]
  rw [htpsl, hps]
  simp [c5rp, hspread, hsrc]

/-- Witness for C5 at the concrete (EURUSD, London, Bullish) computation. -/
theorem risk_parameter_bounds_witness :
    5 ≤ c5rp.tp_pips ∧ 5 ≤ c5rp.sl_pips ∧
    settings_min_lot_size ≤ c5rp.lot_size ∧ c5rp.lot_size ≤ settings_max_lot_size ∧
    ("BULLISH" = "BULLISH" →
      c5rp.stop_loss < c5rp.entry_price ∧ c5rp.entry_price < c5rp.take_profit) ∧
    ("BULLISH" = "BEARISH" →
      c5rp.take_profit < c5rp.entry_price ∧ c5rp.entry_price < c5rp.stop_loss) :=
  risk_parameter_bounds "EURUSD" "London_Open" "BULLISH" (11 / 10) 10000
    (some c5targets) c5rp c5rp_eval


/-! ### Claim C10 — the materialization and the rolling window flag -/

/-- The window-discipline invariant: a row flagged out of the window is
genuinely older than six months relative to `now`. -/
def windowInv (s : List RWRow) (now : ℤ) : Prop :=
  ∀ r ∈ s, r.in_window = false → r.session_datetime < sixMonthsBefore now

theorem applyUpsert_windowInv (s : List RWRow) (now : ℤ)
    (pair session_name : String) (dt : ℤ) (model : String) (correct : Bool)
    (mfe mae : ℚ) (h : windowInv s now) :
    windowInv (applyUpsert s pair session_name dt model correct mfe mae) now := by
  intro r hr hfalse
  unfold applyUpsert at hr
  split at hr
  · rw [List.mem_map] at hr
    obtain ⟨r0, hr0, hr0eq⟩ := hr
    by_cases hk : r0.sameKey pair session_name dt model = true
    · rw [if_pos hk] at hr0eq
      subst hr0eq
      exact h r0 hr0 hfalse
    · rw [if_neg hk] at hr0eq
      subst hr0eq
      exact h r0 hr0 hfalse
  · rcases List.mem_cons.mp hr with hnew | hold
    · subst hnew
      simp at hfalse
    · exact h r hold hfalse

theorem applyCleanup_windowInv (s : List RWRow) (now t : ℤ) (ht : t ≤ now)
    (h : windowInv s now) : windowInv (applyCleanup s t) now := by
  intro r hr hfalse
  unfold applyCleanup at hr
  rw [List.mem_map] at hr
  obtain ⟨r0, hr0, hr0eq⟩ := hr
  by_cases hc : (r0.in_window && decide (r0.session_datetime < sixMonthsBefore t)) = true
  · rw [if_pos hc] at hr0eq
    subst hr0eq
    simp only [Bool.and_eq_true, decide_eq_true_eq] at hc
    have hmono : sixMonthsBefore t ≤ sixMonthsBefore now := by
      unfold sixMonthsBefore
      omega
    simp only []
    omega
  · rw [if_neg hc] at hr0eq
    subst hr0eq
    exact h r0 hr0 hfalse

theorem runRWOps_windowInv (ops : List RWOp) (now : ℤ)
    (hc : ∀ t, RWOp.cleanup t ∈ ops → t ≤ now) :
    windowInv (runRWOps ops) now := by
  suffices hgen : ∀ s : List RWRow, windowInv s now →
      windowInv (ops.foldl applyRWOp s) now by
    exact hgen [] (by intro r hr; simp at hr)
  induction ops with
  | nil => intro s h; exact h
  | cons op rest ih =>
    intro s h
    have hrest : ∀ t, RWOp.cleanup t ∈ rest → t ≤ now := by
      intro t hmem
      exact hc t (List.mem_cons_of_mem _ hmem)
    have hstep : windowInv (applyRWOp s op) now := by
      cases op with
      | upsert pair session_name dt model correct mfe mae =>
        exact applyUpsert_windowInv s now pair session_name dt model correct mfe mae h
      | cleanup t =>
        exact applyCleanup_windowInv s now t (hc t (List.mem_cons_self _ _)) h
    exact ih hrest _ hstep

/-- C10: after a refresh at time `now` of a rolling window produced by any
sequence of upserts and cleanups (each cleanup having run at some time
`≤ now`), every group the percentile materialization aggregates contains at
least one record that is inside the six-month window and has
`in_window = true`; and rows older than six months contribute to no group. -/
theorem materialization_in_window (ops : List RWOp) (now : ℤ)
    (g : String × String × String)
    (hc : ∀ t, RWOp.cleanup t ∈ ops → t ≤ now) :
    ((∃ r ∈ viewRows (runRWOps ops) now, groupOf r = g) →
      ∃ r ∈ runRWOps ops, groupOf r = g ∧
        sixMonthsBefore now ≤ r.session_datetime ∧ r.in_window = true) ∧
    (∀ r ∈ runRWOps ops, r.session_datetime < sixMonthsBefore now →
      r ∉ viewRows (runRWOps ops) now) := by
  have hinv := runRWOps_windowInv ops now hc
  constructor
  · rintro ⟨r, hrv, hgr⟩
    have hrmem : r ∈ runRWOps ops ∧ sixMonthsBefore now ≤ r.session_datetime := by
      have := List.mem_filter.mp hrv
      exact ⟨this.1, by simpa using this.2⟩
    refine ⟨r, hrmem.1, hgr, hrmem.2, ?_⟩
    cases hwin : r.in_window with
    | true => rfl
    | false =>
      have := hinv r hrmem.1 hwin
      omega
  · intro r hr hold hrv
    have := (List.mem_filter.mp hrv).2
    simp at this
    omega

/-- A one-upsert history: a fresh excursion for (EURUSD, London, model m). -/
def c10ops : List RWOp :=
  [RWOp.upsert "EURUSD" "London_Open" 1000 "m" true 10 5]

/-- Witness for C10: with that history refreshed at `now = 1000`, the
(EURUSD, London, m) group of the view indeed contains an in-window record. -/
theorem materialization_in_window_witness :
    ∃ r ∈ runRWOps c10ops, groupOf r = ("EURUSD", "London_Open", "m") ∧
      sixMonthsBefore 1000 ≤ r.session_datetime ∧ r.in_window = true :=
  (materialization_in_window c10ops 1000 ("EURUSD", "London_Open", "m")
    (by intro t ht; simp [c10ops] at ht)).1
    ⟨{ pair := "EURUSD", session_name := "London_Open", session_datetime := 1000,
       model := "m", correct := true, mfe_pips := 10, mae_pips := 5,
       in_window := true },
     by constructor
        · simp [viewRows, c10ops, runRWOps, applyRWOp, applyUpsert, RWRow.sameKey,
            sixMonthsBefore]
        · rfl⟩


end ForexTrader
